import Mathlib

/-!
Verification development for the MCPFixer data-analysis system.

The definitions below are shallow embeddings of the Python source:
  * `processQuerySync` embeds the natural-language branch of
    `process_query_sync` in `src/app.py` (the heuristic intent matcher
    and query router);
  * `processReply` / `runAttempts` / `ollamaProcessQuery` embed
    `OllamaClient.process_query` in `src/client/ollama_client.py`;
  * `executeTool` embeds `DirectClient.execute_tool` in
    `src/client/direct_client.py`;
  * `filterData` and `generateChart` embed the `filter_data` and
    `generate_chart` tool bodies (identical in `src/server/server.py`,
    `src/client/direct_client.py` and `src/app.py`).

Python library primitives (`str.split`, `str.lower`, `in`-substring,
`str.replace`, `json.loads`, `str.find` / `str.rfind`) are modelled by
the corresponding executable Lean functions defined first.
-/

/-- Left brace character, written via its code point. -/
def lbrace : Char := Char.ofNat 123

/-- Right brace character, written via its code point. -/
def rbrace : Char := Char.ofNat 125

/-- Whether `n` occurs as a contiguous infix of the second list. -/
def listInfix (n : List Char) : List Char → Bool
  | [] => n.isEmpty
  | c :: rest => n.isPrefixOf (c :: rest) || listInfix n rest

/-- Python `needle in hay` substring test. -/
def substr (needle hay : String) : Bool :=
  listInfix needle.data hay.data

/-- Python `str.lower()` (ASCII model, as in all the queries involved). -/
def strLower (s : String) : String :=
  String.mk (s.data.map Char.toLower)

/-- Helper for `pySplit`: accumulates the current word (reversed). -/
def pySplitAux : List Char → List Char → List String
  | [], acc => if acc.isEmpty then [] else [String.mk acc.reverse]
  | c :: rest, acc =>
    if c.isWhitespace then
      if acc.isEmpty then pySplitAux rest []
      else String.mk acc.reverse :: pySplitAux rest []
    else pySplitAux rest (c :: acc)

/-- Python `str.split()` with no argument: split on whitespace runs,
dropping empty pieces. -/
def pySplit (s : String) : List String :=
  pySplitAux s.data []

/-- Helper for `pySplitChar`: accumulates the current piece (reversed). -/
def splitOnAux (sep : Char) : List Char → List Char → List String
  | [], acc => [String.mk acc.reverse]
  | c :: rest, acc =>
    if c = sep then String.mk acc.reverse :: splitOnAux sep rest []
    else splitOnAux sep rest (c :: acc)

/-- Python `str.split(sep)` for a single separator character, keeping
empty pieces. -/
def pySplitChar (s : String) (sep : Char) : List String :=
  splitOnAux sep s.data []

/-- Helper for `pyReplace`, fuelled to stay structurally recursive. -/
def replaceListAux (pat repl : List Char) : Nat → List Char → List Char
  | 0, cs => cs
  | _ + 1, [] => []
  | fuel + 1, c :: rest =>
    if pat ≠ [] ∧ pat.isPrefixOf (c :: rest) then
      repl ++ replaceListAux pat repl fuel ((c :: rest).drop pat.length)
    else c :: replaceListAux pat repl fuel rest

/-- Python `str.replace(pat, repl)`: replace every (non-overlapping,
leftmost-first) occurrence. -/
def pyReplace (s pat repl : String) : String :=
  String.mk (replaceListAux pat.data repl.data (s.data.length + 1) s.data)

/-- Python `str.endswith(suffix)`. -/
def strEndsWith (s suffix : String) : Bool :=
  suffix.data.reverse.isPrefixOf s.data.reverse

/-- Python `sep.join(xs)`. -/
def joinSep (sep : String) : List String → String
  | [] => ""
  | [x] => x
  | x :: y :: rest => x ++ sep ++ joinSep sep (y :: rest)

/-- Python `str.title()` restricted to a single lowercase word, as used on
chart types (`'bar'.title() = "Bar"`). -/
def pyCapitalize (s : String) : String :=
  match s.data with
  | [] => ""
  | c :: rest => String.mk (c.toUpper :: rest)

/-- Numeric value of a list of decimal digit characters. -/
def natOfDigits (ds : List Char) : Nat :=
  ds.foldl (fun a c => a * 10 + (c.toNat - 48)) 0

/-- Python `float(s)` / `pandas.to_numeric` on a decimal string, modelled
over the rationals: optional sign, integer part, optional fractional part.
Exponent forms, `inf` and `nan` are outside the model and yield `none`,
as do all non-numeric strings (where Python raises `ValueError`). -/
def parseDecimal (s : String) : Option ℚ :=
  let cs := s.toList
  let (neg, cs) : Bool × List Char :=
    match cs with
    | '-' :: rest => (true, rest)
    | '+' :: rest => (false, rest)
    | _ => (false, cs)
  let intPart := cs.takeWhile Char.isDigit
  let rest := cs.dropWhile Char.isDigit
  match rest with
  | [] =>
    if intPart = [] then none
    else
      let v : ℚ := (natOfDigits intPart : ℚ)
      some (if neg then -v else v)
  | '.' :: rest2 =>
    let fracPart := rest2.takeWhile Char.isDigit
    let rest3 := rest2.dropWhile Char.isDigit
    if rest3 ≠ [] then none
    else if intPart = [] ∧ fracPart = [] then none
    else
      let v : ℚ := (natOfDigits intPart : ℚ) +
        (natOfDigits fracPart : ℚ) / ((10 : ℚ) ^ fracPart.length)
      some (if neg then -v else v)
  | _ => none

/-! ## Query router and heuristic intent matcher (`src/app.py`, `process_query_sync`) -/

/-- Keyword families of the heuristic matcher, in the order the `elif`
chain of `process_query_sync` tests them (`src/app.py` lines 527-594).
Families 0-4 are copied from the source. Index 5 is the spec's
filter/search family, which appears in the spec's priority list but has
no corresponding branch anywhere in the code; it is included only so the
claims about the priority order can be stated. -/
def familyKws : Nat → List String
  | 0 => ["read", "show", "display", "view", "content"]
  | 1 => ["chart", "graph", "plot", "visualiz"]
  | 2 => ["stats", "statistics", "analyze", "summary"]
  | 3 => ["column", "field", "info"]
  | 4 => ["list", "files", "available"]
  | _ => ["filter", "search", "find", "where", "select"]

/-- Whether the query contains some keyword of family `k`, with the
source's semantics: `any(word in query_lower for word in [...])`,
a case-insensitive substring test. -/
def hasFamilyKw (k : Nat) (q : String) : Bool :=
  (familyKws k).any (fun w => substr w (strLower q))

/-- Smart file detection (`src/app.py` lines 511-524): first an exact
token match for a `.csv` word of the query among the available files,
then a normalized-filename substring match. -/
def detectFile (q : String) (files : List String) : Option String :=
  match (pySplit q).find? (fun w => strEndsWith w ".csv" && files.any (fun f => decide (f = w))) with
  | some w => some w
  | none =>
    files.find? (fun f =>
      let base := strLower (pyReplace (pyReplace f "_" " ") ".csv" "")
      substr base (strLower q) || (pySplit base).any (fun part => substr part (strLower q)))

/-- One invocation of `mcp_client.call_tool`: the tool name and the
keyword arguments (all values in these call sites are strings). -/
structure ToolCall where
  name : String
  params : List (String × String)
deriving DecidableEq

/-- The fields of the response dictionary built by `process_query_sync`
that describe the resolution (the `success` flag is `True` on this path). -/
structure Resolution where
  tool_used : Option String
  tool_parameters : Option (List (String × String))
  ai_response : String
  tool_result : Option String
deriving DecidableEq

/-- Clarification reply of the read family when no file was detected. -/
def readClarification (files : List String) : String :=
  "Please specify which file to read. Available files: " ++ joinSep ", " files

/-- Clarification reply of the chart family when no file was detected. -/
def chartClarification (files : List String) : String :=
  "Please specify which file to chart. Available files: " ++ joinSep ", " files

/-- Clarification reply of the stats family when no file was detected. -/
def statsClarification (files : List String) : String :=
  "Please specify which file to analyze. Available files: " ++ joinSep ", " files

/-- Clarification reply of the column family when no file was detected. -/
def columnClarification (files : List String) : String :=
  "Please specify which file to examine. Available files: " ++ joinSep ", " files

/-- Response text of the list family branch. -/
def listFilesResponse : String :=
  "Here are all available CSV files in the data directory."

/-- Response text of the default (no family matched) branch. -/
def capabilityResponse (files : List String) : String :=
  "I can help you analyze CSV data. Available files: " ++ joinSep ", " files ++
    ". Try asking to 'read', 'chart', or 'analyze' a specific file."

/-- The snapshot call made at the start of every natural-language
resolution to obtain the available files (`src/app.py` line 504). -/
def snapshotCall : ToolCall := ⟨"list_data_files", []⟩

/-- Shallow embedding of the natural-language branch of
`process_query_sync` (`src/app.py` lines 497-615, the path taken when no
explicit `tool_name` is supplied). `files` is the file list obtained from
the initial `list_data_files` snapshot call, and `toolOut` is the oracle
giving each `mcp_client.call_tool` invocation's string result. Returns
the resolution fields together with the ordered list of tool invocations
performed. -/
def processQuerySync (q : String) (files : List String) (toolOut : ToolCall → String) :
    Resolution × List ToolCall :=
  if hasFamilyKw 0 q then
    match detectFile q files with
    | some f =>
      let call : ToolCall := ⟨"read_csv", [("filename", f)]⟩
      (⟨some "read_csv", some [("filename", f)],
        "Reading " ++ f ++ " from the data directory.", some (toolOut call)⟩,
       [snapshotCall, call])
    | none => (⟨none, none, readClarification files, none⟩, [snapshotCall])
  else if hasFamilyKw 1 q then
    match detectFile q files with
    | some f =>
      let chart_type :=
        if substr "pie" (strLower q) then "pie"
        else if substr "line" (strLower q) then "line"
        else if substr "scatter" (strLower q) then "scatter"
        else "bar"
      let readCall : ToolCall := ⟨"read_csv", [("filename", f)]⟩
      let csv_data := toolOut readCall
      let lines := if csv_data = "" then [] else pySplitChar csv_data '\n'
      let axes : String × String :=
        match lines with
        | [] => ("x", "y")
        | l0 :: _ =>
          match pySplit l0 with
          | [] => ("x", "y")
          | [c] => (c, c)
          | c0 :: c1 :: _ => (c0, c1)
      let chartCall : ToolCall := ⟨"generate_chart",
        [("data_source", f), ("chart_type", chart_type),
         ("title", pyCapitalize chart_type ++ " Chart"),
         ("x_axis", axes.1), ("y_axis", axes.2)]⟩
      (⟨some "generate_chart", some [("data_source", f), ("chart_type", chart_type)],
        "Creating a " ++ chart_type ++ " chart from " ++ f ++ ".", some (toolOut chartCall)⟩,
       [snapshotCall, readCall, chartCall])
    | none => (⟨none, none, chartClarification files, none⟩, [snapshotCall])
  else if hasFamilyKw 2 q then
    match detectFile q files with
    | some f =>
      let call : ToolCall := ⟨"get_data_stats", [("data_source", f)]⟩
      (⟨some "get_data_stats", some [("data_source", f)],
        "Getting comprehensive statistics for " ++ f ++ ".", some (toolOut call)⟩,
       [snapshotCall, call])
    | none => (⟨none, none, statsClarification files, none⟩, [snapshotCall])
  else if hasFamilyKw 3 q then
    match detectFile q files with
    | some f =>
      let call : ToolCall := ⟨"get_column_info", [("data_source", f)]⟩
      (⟨some "get_column_info", some [("data_source", f)],
        "Getting column information for " ++ f ++ ".", some (toolOut call)⟩,
       [snapshotCall, call])
    | none => (⟨none, none, columnClarification files, none⟩, [snapshotCall])
  else if hasFamilyKw 4 q then
    let call : ToolCall := ⟨"list_data_files", []⟩
    (⟨some "list_data_files", some [], listFilesResponse, some (toolOut call)⟩,
     [snapshotCall, call])
  else
    let call : ToolCall := ⟨"list_data_files", []⟩
    (⟨some "list_data_files", some [], capabilityResponse files, some (toolOut call)⟩,
     [snapshotCall, call])

/-- A fixed tool-output oracle used to instantiate concrete resolutions. -/
def defaultToolOut : ToolCall → String := fun _ => ""

/-- What it means for a resolution to have been decided by keyword family
`i` of the matcher: either that family's tool was selected, or that
family's clarification reply with no tool. Families beyond index 4 have
no branch in the code. -/
def resolvedByFamily : Nat → List String → Resolution → Prop
  | 0, files, r => r.tool_used = some "read_csv" ∨
      (r.tool_used = none ∧ r.ai_response = readClarification files)
  | 1, files, r => r.tool_used = some "generate_chart" ∨
      (r.tool_used = none ∧ r.ai_response = chartClarification files)
  | 2, files, r => r.tool_used = some "get_data_stats" ∨
      (r.tool_used = none ∧ r.ai_response = statsClarification files)
  | 3, files, r => r.tool_used = some "get_column_info" ∨
      (r.tool_used = none ∧ r.ai_response = columnClarification files)
  | 4, _, r => r.tool_used = some "list_data_files" ∧ r.ai_response = listFilesResponse
  | _, _, _ => False

/-! ## Remote reasoner adapter (`src/client/ollama_client.py`, `OllamaClient.process_query`) -/

/-- JSON values, the target of the model of Python `json.loads`. -/
inductive Json
  | null
  | bool (b : Bool)
  | num (q : ℚ)
  | str (s : String)
  | arr (xs : List Json)
  | obj (fields : List (String × Json))

/-- Skip JSON whitespace. -/
def skipWs (cs : List Char) : List Char :=
  cs.dropWhile (fun c => c.isWhitespace)

/-- Parse the remainder of a JSON string literal (after the opening
quote), with basic escape handling. -/
def parseStringLit : List Char → List Char → Option (String × List Char)
  | [], _ => none
  | c :: rest, acc =>
    if c = '"' then some (String.mk acc.reverse, rest)
    else if c = '\\' then
      match rest with
      | [] => none
      | e :: rest2 =>
        let d := if e = 'n' then '\n' else if e = 't' then '\t' else if e = 'r' then '\r' else e
        parseStringLit rest2 (d :: acc)
    else parseStringLit rest (c :: acc)

/-- Parse a JSON number (optional minus sign, digits, optional fraction;
exponent forms are outside the model). -/
def parseNumberJson (cs : List Char) : Option (Json × List Char) :=
  let (neg, cs1) : Bool × List Char :=
    match cs with
    | '-' :: r => (true, r)
    | _ => (false, cs)
  let ip := cs1.takeWhile Char.isDigit
  let r1 := cs1.dropWhile Char.isDigit
  if ip = [] then none
  else
    match r1 with
    | '.' :: r2 =>
      let fp := r2.takeWhile Char.isDigit
      let r3 := r2.dropWhile Char.isDigit
      if fp = [] then none
      else
        let v : ℚ := (natOfDigits ip : ℚ) + (natOfDigits fp : ℚ) / ((10 : ℚ) ^ fp.length)
        some (Json.num (if neg then -v else v), r3)
    | _ => some (Json.num (if neg then -(natOfDigits ip : ℚ) else (natOfDigits ip : ℚ)), r1)

/-- Parsing mode: a whole value, the members of an object, or the
elements of an array (with the fields/elements read so far). -/
inductive PMode
  | value
  | objBody (acc : List (String × Json))
  | arrBody (acc : List Json)

/-- Fuelled recursive-descent JSON parser (model of Python `json.loads`),
returning the parsed value and the unconsumed remainder. -/
def parseJ : Nat → PMode → List Char → Option (Json × List Char)
  | 0, _, _ => none
  | fuel + 1, PMode.value, cs0 =>
    let cs := skipWs cs0
    if cs.take 4 = ['n', 'u', 'l', 'l'] then some (Json.null, cs.drop 4)
    else if cs.take 4 = ['t', 'r', 'u', 'e'] then some (Json.bool true, cs.drop 4)
    else if cs.take 5 = ['f', 'a', 'l', 's', 'e'] then some (Json.bool false, cs.drop 5)
    else
      match cs with
      | [] => none
      | c :: rest =>
        if c = '"' then
          match parseStringLit rest [] with
          | some (s, rest2) => some (Json.str s, rest2)
          | none => none
        else if c = lbrace then parseJ fuel (PMode.objBody []) (skipWs rest)
        else if c = '[' then parseJ fuel (PMode.arrBody []) (skipWs rest)
        else parseNumberJson cs
  | fuel + 1, PMode.objBody acc, cs =>
    match cs with
    | [] => none
    | c :: rest =>
      if c = rbrace ∧ acc.isEmpty then some (Json.obj [], rest)
      else if c = '"' then
        match parseStringLit rest [] with
        | none => none
        | some (key, rest2) =>
          match skipWs rest2 with
          | ':' :: rest3 =>
            match parseJ fuel PMode.value rest3 with
            | none => none
            | some (v, rest4) =>
              match skipWs rest4 with
              | ',' :: rest5 => parseJ fuel (PMode.objBody (acc ++ [(key, v)])) (skipWs rest5)
              | d :: rest5 =>
                if d = rbrace then some (Json.obj (acc ++ [(key, v)]), rest5) else none
              | [] => none
          | _ => none
      else none
  | fuel + 1, PMode.arrBody acc, cs =>
    match cs with
    | [] => none
    | c :: rest =>
      if c = ']' ∧ acc.isEmpty then some (Json.arr [], rest)
      else
        match parseJ fuel PMode.value cs with
        | none => none
        | some (v, rest2) =>
          match skipWs rest2 with
          | ',' :: rest3 => parseJ fuel (PMode.arrBody (acc ++ [v])) (skipWs rest3)
          | ']' :: rest3 => some (Json.arr (acc ++ [v]), rest3)
          | _ => none

/-- Python `json.loads`: parse a complete JSON document, rejecting
trailing non-whitespace data. -/
def jsonLoads (s : String) : Option Json :=
  match parseJ (2 * s.data.length + 8) PMode.value s.data with
  | some (j, rest) => if (skipWs rest).isEmpty then some j else none
  | none => none

/-- Python `str.find(c)`: index of the first occurrence, `-1` if absent. -/
def pyFindChar (s : String) (c : Char) : Int :=
  match s.data.findIdx? (fun x => x = c) with
  | some i => (i : Int)
  | none => -1

/-- Python `str.rfind(c)`: index of the last occurrence, `-1` if absent. -/
def pyRfindChar (s : String) (c : Char) : Int :=
  match s.data.reverse.findIdx? (fun x => x = c) with
  | some i => ((s.data.length - 1 - i : Nat) : Int)
  | none => -1

/-- Python slice `s[a:b]` for nonnegative bounds. -/
def pySlice (s : String) (a b : Nat) : String :=
  String.mk ((s.data.drop a).take (b - a))

/-- The span the code actually extracts from a reasoner reply: from the
first left brace through the last right brace
(`content[start_idx:end_idx]` with `start_idx = content.find` of the left
brace and `end_idx = content.rfind` of the right brace, plus one). -/
def braceSpan (content : String) : String :=
  pySlice content (pyFindChar content lbrace).toNat ((pyRfindChar content rbrace) + 1).toNat

/-- Result of processing one reasoner reply: either the parsed JSON
suggestion, or the degraded dictionary
`(tool := null, parameters := empty, explanation := e)`. -/
inductive ProcessedReply
  | json (j : Json)
  | noTool (explanation : String)

/-- Embedding of the successful-response branch of
`OllamaClient.process_query` (`src/client/ollama_client.py` lines 64-89):
find the first left brace and the last right brace, parse the slice
between them as JSON; when either brace is absent or parsing fails,
degrade to the no-tool reply carrying the raw reply text. -/
def processReply (content : String) : ProcessedReply :=
  let start_idx := pyFindChar content lbrace
  let end_idx := pyRfindChar content rbrace + 1
  if start_idx ≠ -1 ∧ end_idx ≠ 0 then
    match jsonLoads (pySlice content start_idx.toNat end_idx.toNat) with
    | some j => ProcessedReply.json j
    | none => ProcessedReply.noTool content
  else ProcessedReply.noTool content

/-- Helper for `firstBalancedSpan`: scan with a brace-nesting depth,
accumulating the span (reversed) once inside it. -/
def balancedSpanAux : List Char → Nat → List Char → Option (List Char)
  | [], _, _ => none
  | c :: rest, 0, acc =>
    if c = lbrace then balancedSpanAux rest 1 [c] else balancedSpanAux rest 0 acc
  | c :: rest, depth + 1, acc =>
    if c = lbrace then balancedSpanAux rest (depth + 2) (c :: acc)
    else if c = rbrace then
      if depth = 0 then some (c :: acc).reverse
      else balancedSpanAux rest depth (c :: acc)
    else balancedSpanAux rest (depth + 1) (c :: acc)

/-- Modelled from the spec: the first balanced brace-delimited span of a
string, following the spec's words for the reasoner-reply extraction
("extracts the first balanced span from the reply text"). This is the
comparison definition for the extraction the code performs; it does not
appear in the code. -/
def firstBalancedSpan (s : String) : Option String :=
  (balancedSpanAux s.data 0 []).map String.mk

/-- Modelled from the spec: reply processing as the spec describes it,
parsing the first balanced brace span and degrading to the no-tool reply
on failure. Comparison definition for `processReply`. -/
def processReplySpec (content : String) : ProcessedReply :=
  match firstBalancedSpan content with
  | some span =>
    match jsonLoads span with
    | some j => ProcessedReply.json j
    | none => ProcessedReply.noTool content
  | none => ProcessedReply.noTool content

/-- Outcome of one HTTP attempt of `OllamaClient.process_query`: a
response with a status code and body text, a timeout, a connection
error, or some other raised exception. -/
inductive AttemptOutcome
  | success (status : Nat) (content : String)
  | timeout
  | connError
  | exn (msg : String)

/-- The connection-failure explanation returned by the code. -/
def connectErrorMsg : String :=
  "Cannot connect to Ollama. Please make sure it's running with 'ollama serve'"

/-- The retry loop of `OllamaClient.process_query`
(`src/client/ollama_client.py` lines 45-122): `remaining` counts the loop
iterations left (`maxRetries - attempt`), `attempt` is the current index.
Per the source: a 200 response is processed by `processReply`; any other
status returns a no-tool reply immediately; a timeout retries unless this
is the last attempt, then returns a timed-out reply; a connection error
returns a no-tool reply immediately; any other exception retries unless
this is the last attempt. Falling off the loop returns Python `None`,
i.e. `none`. -/
def runAttempts (outcomes : Nat → AttemptOutcome) (maxRetries : Nat) :
    Nat → Nat → Option ProcessedReply
  | 0, _ => none
  | remaining + 1, attempt =>
    match outcomes attempt with
    | AttemptOutcome.success status content =>
      if status = 200 then some (processReply content)
      else some (ProcessedReply.noTool ("Ollama API error: " ++ toString status))
    | AttemptOutcome.timeout =>
      if attempt < maxRetries - 1 then runAttempts outcomes maxRetries remaining (attempt + 1)
      else some (ProcessedReply.noTool ("Request timed out after " ++ toString maxRetries ++
        " attempts. The model might be too large for your system."))
    | AttemptOutcome.connError => some (ProcessedReply.noTool connectErrorMsg)
    | AttemptOutcome.exn e =>
      if attempt < maxRetries - 1 then runAttempts outcomes maxRetries remaining (attempt + 1)
      else some (ProcessedReply.noTool ("Error processing query: " ++ e))

/-- `OllamaClient.process_query`, given the oracle of attempt outcomes
and the client's `max_retries` (default 3 in the source). -/
def ollamaProcessQuery (outcomes : Nat → AttemptOutcome) (maxRetries : Nat) :
    Option ProcessedReply :=
  runAttempts outcomes maxRetries maxRetries 0

/-- Reasoner reply exercising the difference between the code's
first-to-last-brace extraction and the spec's first-balanced-span
extraction: two JSON objects separated by a space. -/
def twoObjectReply : String :=
  "\x7b\"tool\": \"read_csv\"\x7d \x7b\"x\": 1\x7d"

/-! ## Tool executor (`src/client/direct_client.py`, `DirectClient.execute_tool`) -/

/-- A tool descriptor from `DirectClient.get_tool_info`: description,
parameter descriptions and an example parameter set. -/
structure ToolInfo where
  description : String
  parameters : List (String × String)
  exampleParams : List (String × String)

/-- The tool names of `DirectClient.available_tools`, in insertion
order (`src/client/direct_client.py` lines 245-253). -/
def availableToolNames : List String :=
  ["read_csv", "generate_chart", "get_data_stats", "filter_data",
   "get_column_info", "list_data_files", "execute_script"]

/-- `DirectClient.get_tool_info` (`src/client/direct_client.py` lines
277-338). -/
def getToolInfo : String → Option ToolInfo
  | "read_csv" => some
    { description := "Read CSV file content from data directory"
      parameters := [("filename", "Name of the CSV file in the data directory")]
      exampleParams := [("filename", "sample_data.csv")] }
  | "get_data_stats" => some
    { description := "Get comprehensive statistics about CSV data"
      parameters := [("data_source", "Name of the CSV file in the data directory")]
      exampleParams := [("data_source", "sample_data.csv")] }
  | "get_column_info" => some
    { description := "Get detailed information about columns in dataset"
      parameters := [("data_source", "Name of the CSV file in the data directory"),
                     ("column", "Specific column name (optional)")]
      exampleParams := [("data_source", "sample_data.csv"), ("column", "age")] }
  | "filter_data" => some
    { description := "Filter CSV data by column value with various operations"
      parameters := [("data_source", "Name of the CSV file in the data directory"),
                     ("column", "Column name to filter by"),
                     ("value", "Value to filter for"),
                     ("operation", "Filter operation (equals, contains, greater, less, not_equals)")]
      exampleParams := [("data_source", "sample_data.csv"), ("column", "age"),
                  ("value", "25"), ("operation", "greater")] }
  | "generate_chart" => some
    { description := "Generate charts from CSV data"
      parameters := [("data_source", "Name of the CSV file in the data directory"),
                     ("chart_type", "Type of chart (bar, line, scatter, pie)"),
                     ("title", "Chart title"),
                     ("x_axis", "Column name for x-axis"),
                     ("y_axis", "Column name for y-axis")]
      exampleParams := [("data_source", "sample_data.csv"), ("chart_type", "bar"),
                  ("title", "Age Distribution"), ("x_axis", "name"), ("y_axis", "age")] }
  | "list_data_files" => some
    { description := "List all available CSV files in the data directory"
      parameters := []
      exampleParams := [] }
  | "execute_script" => some
    { description := "Execute analysis scripts with CSV data"
      parameters := [("script_name", "Script to execute (bar_chart_generator.py, pie_chart_generator.py, data_analyzer.py)"),
                     ("csv_file", "CSV file to process"),
                     ("args", "Additional arguments as string (optional)")]
      exampleParams := [("script_name", "bar_chart_generator.py"), ("csv_file", "sales_data.csv"),
                  ("args", "Product Sales")] }
  | _ => none

/-- Python `repr` of a string-to-string dictionary, as an f-string
renders the descriptor's parameter and example dictionaries. -/
def renderPyDict (kvs : List (String × String)) : String :=
  "\x7b" ++ joinSep ", " (kvs.map (fun kv => "'" ++ kv.1 ++ "': '" ++ kv.2 ++ "'")) ++ "\x7d"

/-- Outcome of calling a tool implementation with keyword arguments:
a returned value, a raised `TypeError` (wrong keys/arity), or any other
raised exception. -/
inductive CallOutcome
  | ret (s : String)
  | typeError (msg : String)
  | raised (msg : String)

/-- The unknown-tool message of `execute_tool`. -/
def unknownToolMsg (tool_name : String) : String :=
  "Unknown tool: " ++ tool_name ++ ". Available tools: " ++ joinSep ", " availableToolNames

/-- The parameter-mismatch message of `execute_tool` when the tool has a
descriptor. -/
def paramErrorMsg (tool_name e : String) (info : ToolInfo) : String :=
  "Parameter error for " ++ tool_name ++ ": " ++ e ++
    "\nExpected parameters: " ++ renderPyDict info.parameters ++
    "\nExample: " ++ renderPyDict info.exampleParams

/-- Embedding of `DirectClient.execute_tool` (`src/client/direct_client.py`
lines 340-361) for the populated client: `call` is the oracle for what
the selected tool implementation does with the given parameters. Every
path returns a string; no exception escapes. -/
def executeTool (call : String → List (String × String) → CallOutcome)
    (tool_name : String) (params : List (String × String)) : String :=
  if availableToolNames.isEmpty then
    "Error: No tools available. Server functions could not be imported."
  else if tool_name ∉ availableToolNames then unknownToolMsg tool_name
  else
    match call tool_name params with
    | CallOutcome.ret s => s
    | CallOutcome.typeError e =>
      match getToolInfo tool_name with
      | some info => paramErrorMsg tool_name e info
      | none => "Parameter error for " ++ tool_name ++ ": " ++ e
    | CallOutcome.raised e => "Error executing tool " ++ tool_name ++ ": " ++ e

/-! ## Data tool bodies (`src/server/server.py` / `src/client/direct_client.py`) -/

/-- A cell of a data frame read from CSV: pandas type inference yields
either a string cell or a numeric cell (numbers modelled by rationals). -/
inductive Cell
  | str (s : String)
  | num (q : ℚ)
deriving DecidableEq

/-- A pandas data frame: column names and rows of cells. -/
structure DataFrame where
  header : List String
  rows : List (List Cell)
deriving DecidableEq

/-- The data directory contents: filename to parsed data frame. -/
def lookupDf (fs : List (String × DataFrame)) (name : String) : Option DataFrame :=
  (fs.find? (fun p => decide (p.1 = name))).map (fun p => p.2)

/-- The cell of a row in the column at index `i` (frames read from CSV
are rectangular; out-of-range access is irrelevant for them). -/
def cellAt (row : List Cell) (i : Nat) : Cell :=
  row.getD i (Cell.str "")

/-- The cells of the named column, in row order. -/
def colCells (df : DataFrame) (col : String) : List Cell :=
  match df.header.findIdx? (fun h => h = col) with
  | some i => df.rows.map (fun r => cellAt r i)
  | none => []

/-- Python list `repr` of the column names, as the error messages
interpolate `list(df.columns)`. -/
def renderCols (cols : List String) : String :=
  "[" ++ joinSep ", " (cols.map (fun c => "'" ++ c ++ "'")) ++ "]"

/-- The column-not-found message shared by the tool bodies. -/
def columnNotFoundMsg (col : String) (cols : List String) : String :=
  "Column '" ++ col ++ "' not found in data. Available columns: " ++ renderCols cols

/-- The file-not-found message shared by the tool bodies. -/
def fileNotFoundMsg (data_source : String) : String :=
  "Data file " ++ data_source ++ " not found in data directory"

/-- `pandas.to_numeric(..., errors='coerce')` on one cell: numeric cells
stay, string cells parse or coerce to NaN (`none`). -/
def cellNum : Cell → Option ℚ
  | Cell.num q => some q
  | Cell.str s => parseDecimal s

/-- Python `str(cell)` / `astype(str)` on one cell. Integer-valued
numeric cells render as their integer; other rationals keep Lean's
rational rendering (pandas would render a decimal — the claims under
study never stringify fractional cells). -/
def cellToStr : Cell → String
  | Cell.str s => s
  | Cell.num q => if q.den = 1 then toString q.num else toString q.num ++ "/" ++ toString q.den

/-- `df[column] == value` on one cell: pandas compares a numeric cell
with the string value as unequal; string cells compare by equality. -/
def eqPred (value : String) : Cell → Bool
  | Cell.str s => decide (s = value)
  | Cell.num _ => false

/-- `df[column] != value` on one cell. -/
def nePred (value : String) (c : Cell) : Bool :=
  !eqPred value c

/-- `df[column].astype(str).str.contains(value, case=False, na=False)` on
one cell. The source passes the value as a pattern with `regex=True`
defaulted; for the regex-metacharacter-free values of interest this is
the case-insensitive substring test modelled here. -/
def containsPred (value : String) (c : Cell) : Bool :=
  substr (strLower value) (strLower (cellToStr c))

/-- `pd.to_numeric(df[column], errors='coerce') > v` on one cell (NaN
compares false). -/
def gtPred (v : ℚ) (c : Cell) : Bool :=
  match cellNum c with
  | some q => decide (v < q)
  | none => false

/-- `pd.to_numeric(df[column], errors='coerce') < v` on one cell (NaN
compares false). -/
def ltPred (v : ℚ) (c : Cell) : Bool :=
  match cellNum c with
  | some q => decide (q < v)
  | none => false

/-- The per-cell filter predicate of `filter_data` for a given operation
and value, or the error message the code returns instead: the
`greater`/`less` branches fail when `float(value)` raises `ValueError`,
and unsupported operation names fail with the enumeration message. -/
def filterPred (operation value column : String) : Except String (Cell → Bool) :=
  if operation = "equals" then Except.ok (eqPred value)
  else if operation = "contains" then Except.ok (containsPred value)
  else if operation = "greater" then
    match parseDecimal value with
    | some v => Except.ok (gtPred v)
    | none => Except.error
        ("Cannot perform 'greater' operation on non-numeric data in column '" ++ column ++ "'")
  else if operation = "less" then
    match parseDecimal value with
    | some v => Except.ok (ltPred v)
    | none => Except.error
        ("Cannot perform 'less' operation on non-numeric data in column '" ++ column ++ "'")
  else if operation = "not_equals" then Except.ok (nePred value)
  else Except.error
    ("Unsupported operation: " ++ operation ++ ". Supported: equals, contains, greater, less, not_equals")

/-- The rows of the frame whose cell in the named column satisfies the
predicate (`filtered = df[...]`). -/
def matchingRows (df : DataFrame) (col : String) (pred : Cell → Bool) : List (List Cell) :=
  match df.header.findIdx? (fun h => h = col) with
  | some i => df.rows.filter (fun r => pred (cellAt r i))
  | none => []

/-- Result of `filter_data`: either a plain message string, or the JSON
object with the filtered count, the total count, the percentage and the
`data` field (the code renders the listed rows with
`filtered.head(100).to_string(index=False)`; the embedding keeps the row
list itself; the code rounds the percentage to two decimals, kept exact
here). -/
inductive FilterResult
  | text (s : String)
  | jsonOut (filtered_count total_count : Nat) (percentage : ℚ) (data : List (List Cell))
deriving DecidableEq

/-- Embedding of the `filter_data` tool body (`src/server/server.py`
lines 151-203, identical in `src/client/direct_client.py` lines 121-164
and `src/app.py` lines 233-280). -/
def filterData (fs : List (String × DataFrame)) (data_source column value operation : String) :
    FilterResult :=
  match lookupDf fs data_source with
  | none => FilterResult.text (fileNotFoundMsg data_source)
  | some df =>
    if column ∉ df.header then FilterResult.text (columnNotFoundMsg column df.header)
    else
      match filterPred operation value column with
      | Except.error m => FilterResult.text m
      | Except.ok pred =>
        let filtered := matchingRows df column pred
        if filtered.length = 0 then
          FilterResult.text "No rows found matching the filter criteria"
        else
          FilterResult.jsonOut filtered.length df.rows.length
            ((filtered.length : ℚ) / (df.rows.length : ℚ) * 100) (filtered.take 100)

/-- Helper for `uniqFirst`: keeps the elements not seen before. -/
def uniqFirstAux (seen : List Cell) : List Cell → List Cell
  | [] => []
  | c :: rest => if c ∈ seen then uniqFirstAux seen rest else c :: uniqFirstAux (c :: seen) rest

/-- Distinct elements in order of first occurrence. -/
def uniqFirst (cells : List Cell) : List Cell :=
  uniqFirstAux [] cells

/-- Stable insertion into a list sorted by count descending (ties keep
earlier items first). -/
def insertByCount (x : Cell × Nat) : List (Cell × Nat) → List (Cell × Nat)
  | [] => [x]
  | y :: rest => if y.2 < x.2 then x :: y :: rest else y :: insertByCount x rest

/-- `pandas.Series.value_counts()`: distinct values with their counts,
sorted by count descending. -/
def valueCounts (cells : List Cell) : List (Cell × Nat) :=
  ((uniqFirst cells).map (fun c => (c, cells.count c))).foldl (fun acc x => insertByCount x acc) []

/-- Sum of the numeric values of a group of cells
(`groupby(x_axis)[y_axis].sum()` for a numeric y column; non-numeric
cells fall outside the model of interest and are skipped). -/
def sumCells (cells : List Cell) : ℚ :=
  (cells.filterMap cellNum).sum

/-- `df.groupby(x_axis)[y_axis].sum()`: for each distinct x value (first
occurrence order; pandas additionally sorts group keys), the sum of the
y cells of its rows. -/
def groupBySum (df : DataFrame) (x y : String) : List (Cell × ℚ) :=
  let xs := colCells df x
  let ys := colCells df y
  (uniqFirst xs).map (fun k =>
    (k, sumCells ((xs.zip ys).filterMap (fun p => if p.1 = k then some p.2 else none))))

/-- The data handed to the plotting library: paired x/y columns for
bar, line and scatter charts, or labelled slice values for a pie chart. -/
inductive PlotData
  | xy (xs ys : List Cell)
  | pieCounts (slices : List (Cell × Nat))
  | pieSums (slices : List (Cell × ℚ))
deriving DecidableEq

/-- Result of `generate_chart`: an error message string, or a chart of
the given type rendered from the given data and saved to the output
directory (the saved filename embeds the current timestamp and is not
modelled). `saved` is produced exactly when the code writes a chart
file. -/
inductive ChartResult
  | errMsg (s : String)
  | saved (chart_type : String) (data : PlotData)
deriving DecidableEq

/-- Embedding of the `generate_chart` tool body (`src/server/server.py`
lines 40-102, identical in `src/client/direct_client.py` lines 74-119 and
`src/app.py` lines 134-184). -/
def generateChart (fs : List (String × DataFrame))
    (data_source chart_type _title x_axis y_axis : String) : ChartResult :=
  match lookupDf fs data_source with
  | none => ChartResult.errMsg (fileNotFoundMsg data_source)
  | some df =>
    if x_axis ∉ df.header then ChartResult.errMsg (columnNotFoundMsg x_axis df.header)
    else if y_axis ∉ df.header ∧ chart_type ≠ "pie" then
      ChartResult.errMsg (columnNotFoundMsg y_axis df.header)
    else if chart_type = "bar" then
      ChartResult.saved "bar" (PlotData.xy (colCells df x_axis) (colCells df y_axis))
    else if chart_type = "line" then
      ChartResult.saved "line" (PlotData.xy (colCells df x_axis) (colCells df y_axis))
    else if chart_type = "scatter" then
      ChartResult.saved "scatter" (PlotData.xy (colCells df x_axis) (colCells df y_axis))
    else if chart_type = "pie" then
      if y_axis ∈ df.header then
        ChartResult.saved "pie" (PlotData.pieSums (groupBySum df x_axis y_axis))
      else
        ChartResult.saved "pie" (PlotData.pieCounts (valueCounts (colCells df x_axis)))
    else
      ChartResult.errMsg
        ("Unsupported chart type: " ++ chart_type ++ ". Supported types: bar, line, scatter, pie")

/-- A concrete data directory for witnesses: one employees file. -/
def employeesDf : DataFrame :=
  { header := ["name", "age"]
    rows := [[Cell.str "alice", Cell.num 25],
             [Cell.str "bob", Cell.num 35],
             [Cell.str "carol", Cell.num 40]] }

/-- A concrete filesystem for witnesses. -/
def witnessFs : List (String × DataFrame) := [("employee_data.csv", employeesDf)]

/-- The outcomes an attempt loop steps past: a timeout or a generic
raised exception (both hit `continue` branches in the source when a
further attempt remains). -/
def retriedOutcome (o : AttemptOutcome) : Prop :=
  o = AttemptOutcome.timeout ∨ ∃ e, o = AttemptOutcome.exn e

/-- An attempt oracle for witnesses: the first attempt raises a generic
exception, every later one a connection error. -/
def witnessOutcomes : Nat → AttemptOutcome :=
  fun m => if m = 0 then AttemptOutcome.exn "boom" else AttemptOutcome.connError

/-! ## Theorems -/

/-- Claim C6 counterexample: on a reply holding two JSON objects, the
code's extraction (first left brace to last right brace) fails to parse
and degrades to the no-tool reply, while the spec's first-balanced-span
extraction parses the first object; the two disagree, so the adapter does
not extract the first balanced brace span. -/
theorem c6_counterexample :
    processReply twoObjectReply = ProcessedReply.noTool twoObjectReply ∧
    processReplySpec twoObjectReply
      = ProcessedReply.json (Json.obj [("tool", Json.str "read_csv")]) ∧
    processReply twoObjectReply ≠ processReplySpec twoObjectReply := by
  refine ⟨rfl, rfl, ?_⟩
  intro h
  rw [show processReply twoObjectReply = ProcessedReply.noTool twoObjectReply from rfl,
    show processReplySpec twoObjectReply
      = ProcessedReply.json (Json.obj [("tool", Json.str "read_csv")]) from rfl] at h
  exact ProcessedReply.noConfusion h

/-- Claim C6, amended: for every reply text received with a successful
status, the adapter extracts the span from the first left brace through
the last right brace and parses it as JSON as its suggestion; when the
braces are absent or parsing fails, it returns the degraded reply whose
explanation is the raw reply text, rather than failing. -/
theorem c6_extraction :
    ∀ content : String,
      processReply content = ProcessedReply.noTool content ∨
      ∃ j, jsonLoads (braceSpan content) = some j ∧
        processReply content = ProcessedReply.json j := by
  intro content
  by_cases h : pyFindChar content lbrace ≠ -1 ∧ pyRfindChar content rbrace + 1 ≠ 0
  · cases hj : jsonLoads (pySlice content (pyFindChar content lbrace).toNat
        ((pyRfindChar content rbrace) + 1).toNat) with
    | none => exact Or.inl (by simp [processReply, h, hj])
    | some j => exact Or.inr ⟨j, by simpa [braceSpan] using hj, by simp [processReply, h, hj]⟩
  · exact Or.inl (by simp [processReply, h])

/-- Claim C7 counterexample: on a connection failure at the first
attempt, the adapter does not return `none`; it returns a suggestion
whose tool is null and whose explanation is the cannot-connect message. -/
theorem c7_counterexample :
    ollamaProcessQuery (fun _ => AttemptOutcome.connError) 3
      = some (ProcessedReply.noTool connectErrorMsg) ∧
    ollamaProcessQuery (fun _ => AttemptOutcome.connError) 3 ≠ none := by
  refine ⟨rfl, ?_⟩
  intro h
  rw [show ollamaProcessQuery (fun _ => AttemptOutcome.connError) 3
      = some (ProcessedReply.noTool connectErrorMsg) from rfl] at h
  exact Option.noConfusion h

/-- Helper: once every attempt before `k` steps the loop on (timeout or
generic exception, under the last-attempt guard), a connection error at
attempt `k` makes the loop return the cannot-connect no-tool reply. -/
theorem runAttempts_connError (outcomes : Nat → AttemptOutcome) (n k : Nat)
    (hk : k < n) (hpre : ∀ m, m < k → retriedOutcome (outcomes m))
    (hconn : outcomes k = AttemptOutcome.connError) :
    ∀ d a, a + d = k → runAttempts outcomes n (n - a) a
      = some (ProcessedReply.noTool connectErrorMsg) := by
  intro d
  induction d with
  | zero =>
    intro a ha
    have ha' : a = k := by omega
    have hrem : n - a = (n - a - 1) + 1 := by omega
    rw [hrem]
    unfold runAttempts
    rw [ha', hconn]
  | succ d ih =>
    intro a ha
    have hak : a < k := by omega
    have hrem : n - a = (n - (a + 1)) + 1 := by omega
    rw [hrem]
    unfold runAttempts
    have hguard : a < n - 1 := by omega
    rcases hpre a hak with h | ⟨e, h⟩
    · rw [h]
      dsimp only
      rw [if_pos hguard]
      exact ih (a + 1) (by omega)
    · rw [h]
      dsimp only
      rw [if_pos hguard]
      exact ih (a + 1) (by omega)

/-- Claim C7, amended: on a connection failure the adapter returns
immediately, with no further attempt, but it returns a suggestion
`(tool := null, parameters := empty, explanation := cannot-connect
message)`, not `none`; and the attempts before the connection failure may
have been retries of timeouts or of other raised exceptions, not of
timeouts alone. -/
theorem c7_connection_no_retry (outcomes : Nat → AttemptOutcome) (n k : Nat)
    (hk : k < n) (hpre : ∀ m, m < k → retriedOutcome (outcomes m))
    (hconn : outcomes k = AttemptOutcome.connError) :
    ollamaProcessQuery outcomes n = some (ProcessedReply.noTool connectErrorMsg) := by
  have h := runAttempts_connError outcomes n k hk hpre hconn k 0 (by omega)
  simpa [ollamaProcessQuery] using h

/-- Claim C7 witness: with a generic exception on attempt 0 (a retry on a
non-timeout failure) and a connection error on attempt 1, the adapter
returns the cannot-connect suggestion. -/
theorem c7_witness :
    ollamaProcessQuery witnessOutcomes 3 = some (ProcessedReply.noTool connectErrorMsg) := by
  refine c7_connection_no_retry witnessOutcomes 3 1 (by omega) ?_ (by rfl)
  intro m hm
  have hm0 : m = 0 := by omega
  subst hm0
  exact Or.inr ⟨"boom", rfl⟩

/-- Claim C8: `execute_tool` classifies every outcome into a returned
string and lets no exception escape (the embedding is a total function
into strings): an unknown tool name yields the unknown-tool message
enumerating the available tool names; a raised `TypeError` on a known
tool yields the parameter-error message carrying the descriptor's
expected parameters and example (every known tool has a descriptor); any
other raised exception yields the execution-error message; and a normal
return is passed through. -/
theorem c8_executor_classifies :
    ∀ (call : String → List (String × String) → CallOutcome)
      (tool_name : String) (params : List (String × String)),
      (tool_name ∉ availableToolNames →
        executeTool call tool_name params = unknownToolMsg tool_name) ∧
      (tool_name ∈ availableToolNames → ∃ info, getToolInfo tool_name = some info) ∧
      (∀ e info, tool_name ∈ availableToolNames →
        call tool_name params = CallOutcome.typeError e →
        getToolInfo tool_name = some info →
        executeTool call tool_name params = paramErrorMsg tool_name e info) ∧
      (∀ e, tool_name ∈ availableToolNames →
        call tool_name params = CallOutcome.raised e →
        executeTool call tool_name params = "Error executing tool " ++ tool_name ++ ": " ++ e) ∧
      (∀ s, tool_name ∈ availableToolNames →
        call tool_name params = CallOutcome.ret s →
        executeTool call tool_name params = s) := by
  intro call tool_name params
  refine ⟨?_, ?_, ?_, ?_, ?_⟩
  · intro hout
    unfold executeTool
    rw [if_neg (by decide), if_pos hout]
  · intro hin
    simp only [availableToolNames, List.mem_cons, List.not_mem_nil, or_false] at hin
    rcases hin with rfl | rfl | rfl | rfl | rfl | rfl | rfl <;> exact ⟨_, rfl⟩
  · intro e info hin hcall hinfo
    unfold executeTool
    rw [if_neg (by decide), if_neg (fun hn => hn hin), hcall]
    dsimp only
    rw [hinfo]
  · intro e hin hcall
    unfold executeTool
    rw [if_neg (by decide), if_neg (fun hn => hn hin), hcall]
  · intro s hin hcall
    unfold executeTool
    rw [if_neg (by decide), if_neg (fun hn => hn hin), hcall]

/-- Claim C9: for a `filter_data` invocation on an existing file and an
existing column whose operation/value pair yields a filter predicate, the
matching rows decide the outcome: at least one match returns the JSON
object whose `filtered_count` is the total number of matching rows,
`total_count` the number of rows of the file, and `data` the first at
most 100 matching rows; zero matches return the plain no-rows message
instead of the JSON object. -/
theorem c9_filter_truncation (fs : List (String × DataFrame))
    (data_source column value operation : String) (df : DataFrame) (pred : Cell → Bool)
    (hdf : lookupDf fs data_source = some df) (hcol : column ∈ df.header)
    (hpred : filterPred operation value column = Except.ok pred) :
    (matchingRows df column pred = [] →
      filterData fs data_source column value operation
        = FilterResult.text "No rows found matching the filter criteria") ∧
    (matchingRows df column pred ≠ [] →
      filterData fs data_source column value operation
        = FilterResult.jsonOut (matchingRows df column pred).length df.rows.length
            (((matchingRows df column pred).length : ℚ) / (df.rows.length : ℚ) * 100)
            ((matchingRows df column pred).take 100) ∧
      ((matchingRows df column pred).take 100).length ≤ 100) := by
  constructor
  · intro hempty
    unfold filterData
    rw [hdf]
    dsimp only
    rw [if_neg (fun hn => hn hcol), hpred]
    dsimp only
    rw [if_pos (by simp [hempty])]
  · intro hne
    constructor
    · unfold filterData
      rw [hdf]
      dsimp only
      rw [if_neg (fun hn => hn hcol), hpred]
      dsimp only
      rw [if_neg (by simpa [List.length_eq_zero] using hne)]
    · exact List.length_take_le 100 (matchingRows df column pred)

/-- Claim C9 witness: filtering the three-row employees file for
`age greater 30` returns the JSON object with both matching rows, counts
2 of 3, and no truncation. -/
theorem c9_witness :
    filterData witnessFs "employee_data.csv" "age" "30" "greater"
      = FilterResult.jsonOut 2 3 ((2 : ℚ) / 3 * 100)
          [[Cell.str "bob", Cell.num 35], [Cell.str "carol", Cell.num 40]] := by
  have h := (c9_filter_truncation witnessFs "employee_data.csv" "age" "30" "greater"
    employeesDf (gtPred 30) rfl (by decide) rfl).2 (by decide)
  exact h.1.trans (by rfl)

/-- Claim C10: for `generate_chart` on an existing file, a pie chart with
an x-axis column of the file succeeds even when the given y-axis is not a
column, falling back to the value counts of the x-axis column; for chart
type bar, line, or scatter, a y-axis absent from the file's columns
always yields a column-not-found error string -- about the y-axis, or
about the x-axis when that is absent too -- and the result is the error
message, not a saved chart, so no chart file is written. -/
theorem c10_pie_fallback (fs : List (String × DataFrame))
    (data_source title x_axis y_axis : String) (df : DataFrame)
    (hdf : lookupDf fs data_source = some df) :
    (x_axis ∈ df.header → y_axis ∉ df.header →
      generateChart fs data_source "pie" title x_axis y_axis
        = ChartResult.saved "pie" (PlotData.pieCounts (valueCounts (colCells df x_axis)))) ∧
    (∀ t, (t = "bar" ∨ t = "line" ∨ t = "scatter") → y_axis ∉ df.header →
      x_axis ∈ df.header →
      generateChart fs data_source t title x_axis y_axis
        = ChartResult.errMsg (columnNotFoundMsg y_axis df.header)) ∧
    (∀ t, (t = "bar" ∨ t = "line" ∨ t = "scatter") → y_axis ∉ df.header →
      x_axis ∉ df.header →
      generateChart fs data_source t title x_axis y_axis
        = ChartResult.errMsg (columnNotFoundMsg x_axis df.header)) := by
  refine ⟨?_, ?_, ?_⟩
  · intro hx hy
    unfold generateChart
    rw [hdf]
    dsimp only
    rw [if_neg (show ¬x_axis ∉ df.header from fun hn => hn hx),
      if_neg (show ¬(y_axis ∉ df.header ∧ ("pie" : String) ≠ "pie") from fun hn => hn.2 rfl),
      if_neg (by decide), if_neg (by decide), if_neg (by decide), if_pos rfl,
      if_neg (show ¬y_axis ∈ df.header from hy)]
  · intro t ht hy hx
    unfold generateChart
    rw [hdf]
    dsimp only
    rw [if_neg (show ¬x_axis ∉ df.header from fun hn => hn hx),
      if_pos (show y_axis ∉ df.header ∧ t ≠ "pie" from
        ⟨hy, by rcases ht with rfl | rfl | rfl <;> decide⟩)]
  · intro t ht hy hx
    unfold generateChart
    rw [hdf]
    dsimp only
    rw [if_pos (show x_axis ∉ df.header from hx)]

/-- Claim C10 witness: on the employees file with x-axis `name` and the
absent y-axis `missing`, the pie chart is rendered from the name value
counts while the bar chart returns the column-not-found error. -/
theorem c10_witness :
    generateChart witnessFs "employee_data.csv" "pie" "Chart" "name" "missing"
      = ChartResult.saved "pie" (PlotData.pieCounts
          [(Cell.str "alice", 1), (Cell.str "bob", 1), (Cell.str "carol", 1)]) ∧
    generateChart witnessFs "employee_data.csv" "bar" "Chart" "name" "missing"
      = ChartResult.errMsg (columnNotFoundMsg "missing" ["name", "age"]) := by
  have h := c10_pie_fallback witnessFs "employee_data.csv" "Chart" "name" "missing"
    employeesDf rfl
  exact ⟨(h.1 (by decide) (by decide)).trans (by decide),
    (h.2.1 "bar" (Or.inl rfl) (by decide) (by decide)).trans (by rfl)⟩

/-- Claim C1 counterexample: for the query
`"filter where age > 30"` with a detected/default file available, the
router does not select `filter_data`; the query matches no keyword family
and falls to the default branch, which selects `list_data_files`. -/
theorem c1_counterexample :
    (processQuerySync "filter where age > 30" ["employee_data.csv"] defaultToolOut).1.tool_used
      = some "list_data_files" ∧
    (processQuerySync "filter where age > 30" ["employee_data.csv"] defaultToolOut).1.tool_used
      ≠ some "filter_data" := by
  decide

/-- Claim C1, amended: the heuristic matcher has no filter family at all;
for every query, every available-file list and every tool-output oracle,
the tool the router selects is one of `read_csv`, `generate_chart`,
`get_data_stats`, `get_column_info` or `list_data_files` — or no tool —
and `filter_data` is never selected. A filter query such as
`"filter where age > 30"` therefore falls to the default branch. -/
theorem c1_no_filter_family :
    ∀ (q : String) (files : List String) (out : ToolCall → String),
      (processQuerySync q files out).1.tool_used ∈
        [none, some "read_csv", some "generate_chart", some "get_data_stats",
         some "get_column_info", some "list_data_files"] := by
  intro q files out
  unfold processQuerySync
  cases hdet : detectFile q files <;> repeat' split
  all_goals simp

/-- Claim C2 counterexample: a query beginning with the sigil does not
invoke the named tool: `"#get_data_stats"` hits the stats keyword family
(the substring `stats`), finds no file, and resolves to a clarification
with no tool instead of invoking `get_data_stats`. -/
theorem c2_counterexample :
    (processQuerySync "#get_data_stats" [] defaultToolOut).1.tool_used = none ∧
    (processQuerySync "#get_data_stats" [] defaultToolOut).1.tool_used
      ≠ some "get_data_stats" := by
  decide

/-- Claim C2, amended: there is no sigil escape hatch; a query beginning
with the sigil is processed by the ordinary keyword matcher. In
particular `"#list_data_files"` invokes `list_data_files` with no
parameters — not by a bypass, but because it contains the list-family
keyword `list`, as the list-family response text shows. -/
theorem c2_sigil_via_list_family :
    ∀ (files : List String) (out : ToolCall → String),
      (processQuerySync "#list_data_files" files out).1.tool_used = some "list_data_files" ∧
      (processQuerySync "#list_data_files" files out).1.tool_parameters = some [] ∧
      (processQuerySync "#list_data_files" files out).1.ai_response = listFilesResponse ∧
      hasFamilyKw 4 "#list_data_files" = true := by
  intro files out
  have h0 : hasFamilyKw 0 "#list_data_files" = false := by decide
  have h1 : hasFamilyKw 1 "#list_data_files" = false := by decide
  have h2 : hasFamilyKw 2 "#list_data_files" = false := by decide
  have h3 : hasFamilyKw 3 "#list_data_files" = false := by decide
  have h4 : hasFamilyKw 4 "#list_data_files" = true := by decide
  refine ⟨?_, ?_, ?_, h4⟩ <;> simp [processQuerySync, h0, h1, h2, h3, h4]

/-- Claim C3 counterexample: for the query `"hello"`, which matches no
keyword family, the resolution does not have `tool_used` null; the
default branch executes `list_data_files` and reports it as the tool
used. -/
theorem c3_counterexample :
    (processQuerySync "hello" [] defaultToolOut).1.tool_used = some "list_data_files" ∧
    (processQuerySync "hello" [] defaultToolOut).1.tool_used ≠ none := by
  decide

/-- Claim C3, amended: for every query in which no keyword family
matches, the resolution returns the generic capability summary listing
the available files, but it executes `list_data_files` — the invocation
list holds the snapshot call and the default branch's call — and reports
`tool_used = list_data_files`, not null. -/
theorem c3_default_executes_tool :
    ∀ (q : String) (files : List String) (out : ToolCall → String),
      (∀ k, k < 5 → hasFamilyKw k q = false) →
      (processQuerySync q files out).1.tool_used = some "list_data_files" ∧
      (processQuerySync q files out).1.ai_response = capabilityResponse files ∧
      (processQuerySync q files out).2 = [snapshotCall, snapshotCall] := by
  intro q files out h
  have h0 := h 0 (by omega)
  have h1 := h 1 (by omega)
  have h2 := h 2 (by omega)
  have h3 := h 3 (by omega)
  have h4 := h 4 (by omega)
  refine ⟨?_, ?_, ?_⟩ <;> simp [processQuerySync, h0, h1, h2, h3, h4, snapshotCall]

/-- Claim C3 witness: the query `"hello"` matches no family and resolves
to the capability summary with `list_data_files` executed. -/
theorem c3_witness :
    (processQuerySync "hello" ["employee_data.csv"] defaultToolOut).1.tool_used
      = some "list_data_files" ∧
    (processQuerySync "hello" ["employee_data.csv"] defaultToolOut).1.ai_response
      = capabilityResponse ["employee_data.csv"] ∧
    (processQuerySync "hello" ["employee_data.csv"] defaultToolOut).2
      = [snapshotCall, snapshotCall] :=
  c3_default_executes_tool "hello" ["employee_data.csv"] defaultToolOut (by decide)

/-- Claim C4 counterexample: resolving the single query
`"chart employee_data.csv"` invokes three tool implementations — the
`list_data_files` snapshot, the `read_csv` header probe, and
`generate_chart` — not exactly one. -/
theorem c4_counterexample :
    ((processQuerySync "chart employee_data.csv" ["employee_data.csv"] defaultToolOut).2).length
      = 3 ∧
    ((processQuerySync "chart employee_data.csv" ["employee_data.csv"] defaultToolOut).2).length
      ≠ 1 := by
  decide

/-- Claim C4, amended: exactly one tier's suggestion is surfaced — when a
tool is reported as used it is the last tool invoked, and no resolution
reports more than one — but a resolution executes between one and three
tool invocations: every natural-language query first invokes
`list_data_files` for the file snapshot, and the chart branch invokes
`read_csv` for the header probe before the surfaced tool. -/
theorem c4_invocation_bounds :
    ∀ (q : String) (files : List String) (out : ToolCall → String),
      1 ≤ ((processQuerySync q files out).2).length ∧
      ((processQuerySync q files out).2).length ≤ 3 ∧
      (∀ t, (processQuerySync q files out).1.tool_used = some t →
        (((processQuerySync q files out).2).getLast?).map ToolCall.name = some t) := by
  intro q files out
  unfold processQuerySync
  cases hdet : detectFile q files <;> repeat' split
  all_goals simp

/-- Claim C5: the keyword families are tested in the fixed priority order
read/show/display/view/content, then chart/graph/plot/visualize, then
stats/statistics/analyze/summary, then column/field/info, then
list/files/available, then the filter family: for every query containing
keywords of a family `i` and of a later family `j` (and none of a family
before `i`), the matcher resolves the query by family `i`, the earlier of
the two, regardless of keyword count or position. (The filter family may
only play the role of the later family `j`: it is last in the order.) -/
theorem c5_priority_order :
    ∀ (q : String) (files : List String) (out : ToolCall → String) (i j : Nat),
      i < j → j ≤ 5 → hasFamilyKw i q = true → hasFamilyKw j q = true →
      (∀ k, k < i → hasFamilyKw k q = false) →
      resolvedByFamily i files ((processQuerySync q files out).1) := by
  intro q files out i j hij hj5 hi hjq hearlier
  have hi4 : i ≤ 4 := by omega
  interval_cases i
  · unfold processQuerySync
    rw [if_pos hi]
    cases hdet : detectFile q files <;> simp [resolvedByFamily]
  · have e0 : ¬ (hasFamilyKw 0 q = true) := by simp [hearlier 0 (by omega)]
    unfold processQuerySync
    rw [if_neg e0, if_pos hi]
    cases hdet : detectFile q files <;> simp [resolvedByFamily]
  · have e0 : ¬ (hasFamilyKw 0 q = true) := by simp [hearlier 0 (by omega)]
    have e1 : ¬ (hasFamilyKw 1 q = true) := by simp [hearlier 1 (by omega)]
    unfold processQuerySync
    rw [if_neg e0, if_neg e1, if_pos hi]
    cases hdet : detectFile q files <;> simp [resolvedByFamily]
  · have e0 : ¬ (hasFamilyKw 0 q = true) := by simp [hearlier 0 (by omega)]
    have e1 : ¬ (hasFamilyKw 1 q = true) := by simp [hearlier 1 (by omega)]
    have e2 : ¬ (hasFamilyKw 2 q = true) := by simp [hearlier 2 (by omega)]
    unfold processQuerySync
    rw [if_neg e0, if_neg e1, if_neg e2, if_pos hi]
    cases hdet : detectFile q files <;> simp [resolvedByFamily]
  · have e0 : ¬ (hasFamilyKw 0 q = true) := by simp [hearlier 0 (by omega)]
    have e1 : ¬ (hasFamilyKw 1 q = true) := by simp [hearlier 1 (by omega)]
    have e2 : ¬ (hasFamilyKw 2 q = true) := by simp [hearlier 2 (by omega)]
    have e3 : ¬ (hasFamilyKw 3 q = true) := by simp [hearlier 3 (by omega)]
    unfold processQuerySync
    rw [if_neg e0, if_neg e1, if_neg e2, if_neg e3, if_pos hi]
    simp [resolvedByFamily]

/-- Claim C5 witness: `"show me a chart of something"` contains a read
keyword and a chart keyword; it is resolved by the read family (here as
the read clarification, no file being detected). -/
theorem c5_witness :
    resolvedByFamily 0 ["employee_data.csv"]
      ((processQuerySync "show me a chart of something" ["employee_data.csv"] defaultToolOut).1) :=
  c5_priority_order "show me a chart of something" ["employee_data.csv"] defaultToolOut 0 1
    (by omega) (by omega) (by decide) (by decide) (fun k hk => absurd hk (Nat.not_lt_zero k))
